import Mathlib

set_option linter.dupNamespace false
set_option linter.unusedVariables false

/-!
Shallow embedding of the header `task.h` (namespace xrt::task): a
type-erased packaged task, a blocking LIFO work queue with a cooperative
shutdown flag, a future-like event, the submission helpers createF and
createM, and the worker loop.

The standard-library pieces the header relies on, std::packaged_task and
std::future, are modelled by an explicit shared-state machine
(ResultState): operator() of a packaged_task stores the callable's value
or thrown exception in the shared state, throwing a future_error with
code promise_already_satisfied if invoked twice; the destructor of a
packaged_task abandons a not-yet-ready shared state, storing a
broken_promise error; and get on the future blocks on a pending state,
returns a stored value, or rethrows a stored exception. Exceptions are
identified abstractly by a natural-number code. Mutex-serialized
operations are modelled as atomic transitions on the serialized state.
-/

namespace xrt.task

/-- Result of running a bound callable: a value, or a thrown exception. -/
inductive Outcome (α : Type) where
  | ok (v : α)
  | thrown (e : Nat)
  deriving Repr, DecidableEq

/-- State of the shared state connecting a std::packaged_task to its
std::future (the result channel backing an event). -/
inductive ResultState (α : Type) where
  | pending
  | value (v : α)
  | error (e : Nat)
  | broken
  deriving Repr, DecidableEq

/-- Model of std::packaged_task of type RT(): the bound zero-argument
computation, whether operator() has already been invoked, and the shared
state visible through the paired future. -/
structure packaged_task (α : Type) where
  comp : Unit → Outcome α
  invoked : Bool
  slot : ResultState α

/-- Observable outcome of one call to operator() of the packaged_task,
and hence of task::execute: returned normally (the callable's value or
exception went into the shared state, never crossing to the caller),
threw a future_error with code promise_already_satisfied, or hit
undefined behavior (the null dereference in task::execute on an empty
handle), modelled as a trap. -/
inductive ExecOutcome where
  | done
  | alreadySatisfied
  | trap
  deriving Repr, DecidableEq

/-- Model of operator() of std::packaged_task: if already invoked, throw
future_error with code promise_already_satisfied; otherwise run the
stored computation and store its value or thrown exception in the shared
state, returning normally either way. -/
def packaged_task.run (pt : packaged_task α) : ExecOutcome × packaged_task α :=
  if pt.invoked then (ExecOutcome.alreadySatisfied, pt)
  else
    let s : ResultState α :=
      match pt.comp () with
      | Outcome.ok v => ResultState.value v
      | Outcome.thrown e => ResultState.error e
    (ExecOutcome.done, { pt with invoked := true, slot := s })

/-- Destructor of std::packaged_task abandoning its shared state: a
not-yet-ready state becomes broken (a stored broken_promise error); a
ready state is left unchanged. -/
def abandonSlot : ResultState α → ResultState α
  | ResultState.pending => ResultState.broken
  | s => s

/-- Observable behavior of get on a std::future: block while the state
is pending, return a stored value, rethrow the callable's stored
exception, or throw a future_error with code broken_promise. -/
inductive GetResult (α : Type) where
  | blockForever
  | val (v : α)
  | err (e : Nat)
  | brokenPromise
  deriving Repr, DecidableEq

/-- Model of get on a std::future, as a function of the shared state at
the time of the call. -/
def futureGet : ResultState α → GetResult α
  | ResultState.pending => GetResult.blockForever
  | ResultState.value v => GetResult.val v
  | ResultState.error e => GetResult.err e
  | ResultState.broken => GetResult.brokenPromise

/-- Class task: type-erased movable-only wrapper; content is the owned
task_holder (holding a packaged_task), or null. -/
structure task (α : Type) where
  content : Option (packaged_task α)

/-- Default constructor task(): content is null. -/
def task.mk0 : task α := ⟨none⟩

/-- Constructor from a packaged_task rvalue: content owns a new
task_holder around it. -/
def task.ofPackaged (pt : packaged_task α) : task α := ⟨some pt⟩

/-- Member task::valid(): content != nullptr. -/
def task.valid (t : task α) : Bool := t.content.isSome

/-- Member task::execute(): content->execute(), which runs the held
packaged_task; on a null content this dereferences a null pointer
(undefined behavior, modelled as a trap, with the handle unchanged).
Note that content is not reset by execution. -/
def task.execute (t : task α) : ExecOutcome × task α :=
  match t.content with
  | none => (ExecOutcome.trap, t)
  | some pt =>
    let r := pt.run
    (r.1, ⟨some r.2⟩)

/-- Move construction task(task&& rhs): steals content and nulls the
source. Returns the pair (destination, source after the move). -/
def task.moveFrom (t : task α) : task α × task α := (⟨t.content⟩, ⟨none⟩)

/-- Destroying a task: the held packaged_task, if any, abandons its
shared state. Returns the shared state the paired event sees afterwards,
or none if the handle was empty. -/
def task.destroySlot (t : task α) : Option (ResultState α) :=
  t.content.map (fun pt => abandonSlot pt.slot)

/-- Class queue: the ordered collection m_tasks and the shutdown flag
m_stop; the mutex and condition variable serialize operations, so the
embedding models the serialized state. The element type is a parameter
so that queue facts can be stated for any stored task type. -/
structure queue (τ : Type) where
  m_tasks : List τ
  m_stop : Bool

/-- Constructor queue(): empty collection, m_stop false. -/
def queue.init : queue τ := ⟨[], false⟩

/-- Member queue::addWork: m_tasks.push_back(std::move(t)), then notify
one waiter. -/
def queue.addWork (q : queue τ) (t : τ) : queue τ :=
  { q with m_tasks := q.m_tasks ++ [t] }

/-- Member queue::getWork: wait while !m_stop && m_tasks.empty(); then
if !m_stop, remove and return m_tasks.back(), else return the
default-constructed (invalid) task without touching m_tasks. The outer
none models blocking forever (empty, not stopped, and nobody else to
wake the waiter); some (none, q) models returning the empty handle;
some (some t, q1) models dequeuing t leaving state q1. -/
def queue.getWork (q : queue τ) : Option (Option τ × queue τ) :=
  if q.m_stop then some (none, q)
  else
    match q.m_tasks.getLast? with
    | none => none
    | some t => some (some t, ⟨q.m_tasks.dropLast, q.m_stop⟩)

/-- Member queue::stop: set m_stop and notify all waiters. -/
def queue.stop (q : queue τ) : queue τ := { q with m_stop := true }

/-- One serialized operation on a queue, for stating reachability facts
about sequences of addWork, getWork and stop calls. -/
inductive QOp (τ : Type) where
  | add (t : τ)
  | get
  | stop

/-- Effect of one serialized operation on the queue state; a getWork
call that blocks leaves the state unchanged (the caller is parked). -/
def queue.applyOp (q : queue τ) : QOp τ → queue τ
  | QOp.add t => q.addWork t
  | QOp.get =>
    match q.getWork with
    | none => q
    | some r => r.2
  | QOp.stop => q.stop

/-- Effect of a sequence of serialized operations, first element
applied first. -/
def queue.applyOps (q : queue τ) : List (QOp τ) → queue τ
  | [] => q
  | op :: ops => (q.applyOp op).applyOps ops

/-- Class event: wraps the std::future; the field holds the shared
state the future observes at the time of the call being modelled. -/
structure event (α : Type) where
  m_future : ResultState α

/-- Member event::get(): m_future.get(). -/
def event.get (e : event α) : GetResult α := futureGet e.m_future

/-- Member event::wait(): m_future.get(), same as get. -/
def event.wait (e : event α) : GetResult α := futureGet e.m_future

/-- Member event::ready(): wait_for(0) == ready, i.e. the shared state
is no longer pending. -/
def event.ready (e : event α) : Bool :=
  match e.m_future with
  | ResultState.pending => false
  | _ => true

/-- Binding step of createF: std::bind(f, args...) packaged into a
packaged_task, fresh (not invoked, shared state pending). -/
def bindF (f : β → α) (x : β) : packaged_task α :=
  ⟨fun _ => Outcome.ok (f x), false, ResultState.pending⟩

/-- Binding step of createM: std::bind(f, std::ref(c), args...) packaged
into a packaged_task, fresh (not invoked, shared state pending). -/
def bindM (f : γ → β → α) (c : γ) (x : β) : packaged_task α :=
  ⟨fun _ => Outcome.ok (f c x), false, ResultState.pending⟩

/-- Function createF(q, f, args...): build the packaged task, take its
future into an event, enqueue the task, return the event together with
the new queue state. -/
def createF (q : queue (task α)) (f : β → α) (x : β) :
    event α × queue (task α) :=
  let t := bindF f x
  (⟨t.slot⟩, q.addWork (task.ofPackaged t))

/-- Function createM(q, f, c, args...): same as createF for a member
function bound to receiver c. -/
def createM (q : queue (task α)) (f : γ → β → α) (c : γ) (x : β) :
    event α × queue (task α) :=
  let t := bindM f c x
  (⟨t.slot⟩, q.addWork (task.ofPackaged t))

/-- Specification's claimed reading of task::valid, for comparison with
the implementation: the handle currently owns a callable that has not
yet been executed. -/
def ownsUnexecutedWork (t : task α) : Prop :=
  ∃ pt, t.content = some pt ∧ pt.invoked = false

/-- Concrete sample task squaring a number, built the way createF binds
a free function, used to instantiate universally quantified theorems. -/
def sampleTask (n : Nat) : task Nat :=
  task.ofPackaged (bindF (fun x => x * x) n)

/-- Concrete packaged task whose callable throws exception code 42,
used to instantiate universally quantified theorems. -/
def failingTask : packaged_task Nat :=
  ⟨fun _ => Outcome.thrown 42, false, ResultState.pending⟩

/-- Function worker(queue&): repeatedly getWork; execute each returned
handle when it is valid; break on an invalid handle. The result records
the handles executed in order, the final queue state, and true when the
loop exited via an invalid handle (false when it blocked in getWork). -/
def worker (q : queue (task α)) : List (task α) × queue (task α) × Bool :=
  match h : q.getWork with
  | none => ([], q, false)
  | some (none, q1) => ([], q1, true)
  | some (some t, q1) =>
    if t.valid then
      let r := worker q1
      (t :: r.1, r.2.1, r.2.2)
    else ([], q1, true)
termination_by q.m_tasks.length
decreasing_by
  unfold queue.getWork at h
  by_cases hs : q.m_stop = true
  · rw [if_pos hs] at h
    simp at h
  · rw [if_neg hs] at h
    cases hl : q.m_tasks.getLast? with
    | none => rw [hl] at h; simp at h
    | some t0 =>
      rw [hl] at h
      simp only [Option.some.injEq, Prod.mk.injEq] at h
      have hne : q.m_tasks ≠ [] := by
        intro he
        rw [he] at hl
        simp at hl
      have hpos : 0 < q.m_tasks.length := List.length_pos.mpr hne
      have hq1 := h.2
      subst hq1
      simp only [List.length_dropLast]
      omega

/-- Helper: a stopped queue answers getWork with the empty handle and an
unchanged state. -/
theorem getWork_stopped (q : queue τ) (h : q.m_stop = true) :
    q.getWork = some (none, q) := by
  unfold queue.getWork
  rw [if_pos h]

/-- Helper: a non-stopped empty queue blocks in getWork. -/
theorem getWork_blocked (q : queue τ) (h1 : q.m_stop = false)
    (h2 : q.m_tasks = []) : q.getWork = none := by
  simp [queue.getWork, h1, h2]

/-- Helper: a non-stopped queue whose collection is l ++ [t] answers
getWork with t, leaving l. -/
theorem getWork_dequeue (q : queue τ) (l : List τ) (t : τ)
    (h1 : q.m_stop = false) (h2 : q.m_tasks = l ++ [t]) :
    q.getWork = some (some t, ⟨l, false⟩) := by
  simp [queue.getWork, h1, h2]

/-- Helper: every getWork return leaves the shutdown flag unchanged. -/
theorem getWork_preserves_stop (q : queue τ) (r : Option τ × queue τ)
    (h : q.getWork = some r) : r.2.m_stop = q.m_stop := by
  unfold queue.getWork at h
  by_cases hs : q.m_stop = true
  · rw [if_pos hs] at h
    obtain rfl := Option.some.inj h
    rfl
  · rw [if_neg hs] at h
    cases hl : q.m_tasks.getLast? with
    | none => rw [hl] at h; exact Option.noConfusion h
    | some t0 =>
      rw [hl] at h
      obtain rfl := Option.some.inj h
      rfl

/-- Helper: no single serialized operation clears a set shutdown flag. -/
theorem applyOp_stop_mono (q : queue τ) (op : QOp τ) (h : q.m_stop = true) :
    (q.applyOp op).m_stop = true := by
  cases op with
  | add t => exact h
  | get =>
    unfold queue.applyOp
    cases hg : q.getWork with
    | none => simp only [hg]; exact h
    | some r =>
      simp only [hg]
      rw [getWork_preserves_stop q r hg]
      exact h
  | stop => rfl

/-- Helper: no sequence of serialized operations clears a set shutdown
flag. -/
theorem applyOps_stop_mono (q : queue τ) (ops : List (QOp τ))
    (h : q.m_stop = true) : (q.applyOps ops).m_stop = true := by
  induction ops generalizing q with
  | nil => exact h
  | cons op ops ih => exact ih _ (applyOp_stop_mono q op h)

/-- Helper: when getWork blocks, the worker loop is stuck inside it:
nothing is executed, the state is unchanged, the loop has not exited. -/
theorem worker_getWork_none (q : queue (task α)) (h : q.getWork = none) :
    worker q = ([], q, false) := by
  rw [worker]
  split <;> simp_all

/-- Helper: when getWork returns the empty handle, the worker executes
nothing and exits the loop. -/
theorem worker_getWork_empty_handle (q q1 : queue (task α))
    (h : q.getWork = some (none, q1)) : worker q = ([], q1, true) := by
  rw [worker]
  split <;> simp_all

/-- Helper: when getWork returns a valid handle, the worker executes it
and loops on the remaining state. -/
theorem worker_getWork_valid (q q1 : queue (task α)) (t : task α)
    (h : q.getWork = some (some t, q1)) (hv : t.valid = true) :
    worker q = (t :: (worker q1).1, (worker q1).2.1, (worker q1).2.2) := by
  rw [worker]
  split <;> simp_all

/-- Helper: when getWork returns an invalid queued handle, the worker
executes nothing further and exits the loop. -/
theorem worker_getWork_invalid_task (q q1 : queue (task α)) (t : task α)
    (h : q.getWork = some (some t, q1)) (hv : t.valid = false) :
    worker q = ([], q1, true) := by
  rw [worker]
  split <;> simp_all

/-- Helper: a worker on a non-stopped queue of valid tasks executes them
all, back first, then blocks in getWork on the drained queue. -/
theorem worker_drains (l : List (task α)) (hv : ∀ t ∈ l, t.valid = true) :
    worker ⟨l, false⟩ = (l.reverse, (⟨[], false⟩ : queue (task α)), false) := by
  induction l using List.reverseRecOn with
  | nil =>
    rw [worker_getWork_none _ (getWork_blocked _ rfl rfl)]
    rfl
  | append_singleton l t ih =>
    have hd := getWork_dequeue (⟨l ++ [t], false⟩ : queue (task α)) l t rfl rfl
    rw [worker_getWork_valid _ _ _ hd (hv t (by simp)),
      ih (fun u hu => hv u (by simp [hu]))]
    simp

/-- C1: for every callable f and argument list args submitted via
createF (and analogously a member function via createM), createF binds
f with args into a packaged task and enqueues it, and if the resulting
task is executed then get (and wait) on the returned event yields
exactly the value f(args) (respectively (c.*f)(args)) that the callable
produced. -/
theorem claim_result_delivery {α β γ : Type} (q : queue (task α))
    (f : β → α) (x : β) (g : γ → β → α) (c : γ) (y : β) :
    (createF q f x).2 = q.addWork (task.ofPackaged (bindF f x)) ∧
    (createM q g c y).2 = q.addWork (task.ofPackaged (bindM g c y)) ∧
    event.get ⟨(((bindF f x).run).2).slot⟩ = GetResult.val (f x) ∧
    event.wait ⟨(((bindF f x).run).2).slot⟩ = GetResult.val (f x) ∧
    event.get ⟨(((bindM g c y).run).2).slot⟩ = GetResult.val (g c y) ∧
    event.wait ⟨(((bindM g c y).run).2).slot⟩ = GetResult.val (g c y) := by
  refine ⟨rfl, rfl, ?_, ?_, ?_, ?_⟩ <;> rfl

/-- C2: getWork removes and returns the most-recently-enqueued task
(stack discipline): on any non-stopped queue, getWork after addWork t
returns t and restores the previous state; consequently a single worker
given tasks enqueued in order t1, t2, t3 executes them in order
t3, t2, t1. -/
theorem claim_lifo_dequeue {τ α : Type} (q : queue τ) (t : τ)
    (h : q.m_stop = false) (t1 t2 t3 : task α) (h1 : t1.valid = true)
    (h2 : t2.valid = true) (h3 : t3.valid = true) :
    (q.addWork t).getWork = some (some t, q) ∧
    (worker (((queue.init.addWork t1).addWork t2).addWork t3)).1
      = [t3, t2, t1] := by
  constructor
  · obtain ⟨l, s⟩ := q
    cases h
    exact getWork_dequeue _ l t rfl rfl
  · have he : ((queue.init.addWork t1).addWork t2).addWork t3
        = (⟨[t1, t2, t3], false⟩ : queue (task α)) := rfl
    rw [he, worker_drains [t1, t2, t3] (by
      intro u hu
      simp at hu
      rcases hu with rfl | rfl | rfl <;> assumption)]
    rfl

/-- C2 witness: instance of the LIFO theorem at a concrete queue and
three concrete valid tasks. -/
theorem claim_lifo_dequeue_witness :
    ((⟨[5], false⟩ : queue Nat).addWork 9).getWork
      = some (some 9, (⟨[5], false⟩ : queue Nat)) ∧
    (worker (((queue.init.addWork (sampleTask 1)).addWork
      (sampleTask 2)).addWork (sampleTask 3))).1
      = [sampleTask 3, sampleTask 2, sampleTask 1] :=
  claim_lifo_dequeue (⟨[5], false⟩ : queue Nat) 9 rfl
    (sampleTask 1) (sampleTask 2) (sampleTask 3) rfl rfl rfl

/-- C3: once the shutdown flag is set, getWork returns the empty handle
(whose valid() is false) leaving the queue unchanged, however many
tasks remain; addWork still appends after shutdown, and getWork on the
grown queue still returns the empty handle without removing anything. -/
theorem claim_shutdown_getWork {τ α : Type} (q : queue τ) (t : τ)
    (h : q.m_stop = true) :
    q.getWork = some (none, q) ∧
    (task.mk0 : task α).valid = false ∧
    (q.addWork t).m_tasks = q.m_tasks ++ [t] ∧
    (q.addWork t).getWork = some (none, q.addWork t) := by
  exact ⟨getWork_stopped q h, rfl, rfl, getWork_stopped _ h⟩

/-- C3 witness: instance at a concrete stopped queue holding one task. -/
theorem claim_shutdown_getWork_witness :
    (⟨[4], true⟩ : queue Nat).getWork = some (none, (⟨[4], true⟩ : queue Nat)) ∧
    (task.mk0 : task Nat).valid = false ∧
    ((⟨[4], true⟩ : queue Nat).addWork 7).m_tasks = [4] ++ [7] ∧
    ((⟨[4], true⟩ : queue Nat).addWork 7).getWork
      = some (none, (⟨[4], true⟩ : queue Nat).addWork 7) :=
  claim_shutdown_getWork (⟨[4], true⟩ : queue Nat) 7 rfl

/-- C4: if a task's packaged callable is destroyed without execute ever
having been called (its shared state still pending), the shared state
becomes broken, and get / wait on the paired event then reports the
distinct broken_promise failure instead of blocking forever. -/
theorem claim_abandoned_result {α : Type} (pt : packaged_task α)
    (h : pt.invoked = false) (hs : pt.slot = ResultState.pending) :
    task.destroySlot (task.ofPackaged pt) = some ResultState.broken ∧
    event.get ⟨abandonSlot pt.slot⟩ = GetResult.brokenPromise ∧
    event.wait ⟨abandonSlot pt.slot⟩ = GetResult.brokenPromise ∧
    event.get ⟨abandonSlot pt.slot⟩ ≠ GetResult.blockForever := by
  rw [hs]
  exact ⟨by simp [task.destroySlot, task.ofPackaged, hs, abandonSlot],
    rfl, rfl, by simp [event.get, abandonSlot, futureGet]⟩

/-- C4 witness: instance at a concrete never-executed packaged task. -/
theorem claim_abandoned_result_witness :
    task.destroySlot (task.ofPackaged (bindF (fun n : Nat => n) 3))
      = some ResultState.broken ∧
    event.get ⟨abandonSlot (bindF (fun n : Nat => n) 3).slot⟩
      = GetResult.brokenPromise ∧
    event.wait ⟨abandonSlot (bindF (fun n : Nat => n) 3).slot⟩
      = GetResult.brokenPromise ∧
    event.get ⟨abandonSlot (bindF (fun n : Nat => n) 3).slot⟩
      ≠ GetResult.blockForever :=
  claim_abandoned_result (bindF (fun n : Nat => n) 3) rfl rfl

/-- C5: a callable that throws during execution has its exception
captured into the shared state and re-surfaced unchanged to get / wait;
the run itself returns normally (the worker thread is not terminated),
and the failure is not dropped. -/
theorem claim_failure_propagation {α : Type} (pt : packaged_task α)
    (e : Nat) (h : pt.invoked = false)
    (hc : pt.comp () = Outcome.thrown e) :
    (pt.run).1 = ExecOutcome.done ∧
    ((pt.run).2).slot = ResultState.error e ∧
    event.get ⟨((pt.run).2).slot⟩ = GetResult.err e ∧
    event.wait ⟨((pt.run).2).slot⟩ = GetResult.err e := by
  unfold packaged_task.run
  rw [if_neg (by simp [h])]
  simp [hc, event.get, event.wait, futureGet]

/-- C5 witness: instance at a concrete throwing packaged task. -/
theorem claim_failure_propagation_witness :
    ((failingTask).run).1 = ExecOutcome.done ∧
    (((failingTask).run).2).slot = ResultState.error 42 ∧
    event.get ⟨(((failingTask).run).2).slot⟩ = GetResult.err 42 ∧
    event.wait ⟨(((failingTask).run).2).slot⟩ = GetResult.err 42 :=
  claim_failure_propagation failingTask 42 rfl rfl

/-- C6 counterexample: after execute has run, the handle still reports
valid() == true although it no longer owns an unexecuted callable, so
valid() is not equivalent to ownership of an unexecuted callable. -/
theorem claim_valid_unexecuted_cex :
    (((task.ofPackaged (bindF (fun n : Nat => n * n) 2)).execute).2).valid
      = true ∧
    ¬ ownsUnexecutedWork
      ((task.ofPackaged (bindF (fun n : Nat => n * n) 2)).execute).2 := by
  constructor
  · rfl
  · rintro ⟨pt, hpt, hinv⟩
    have hc : (((task.ofPackaged (bindF (fun n : Nat => n * n) 2)).execute).2).content
        = some (((bindF (fun n : Nat => n * n) 2)).run).2 := rfl
    rw [hc] at hpt
    obtain rfl := Option.some.inj hpt
    exact absurd hinv (by simp [bindF, packaged_task.run])

/-- C6 (amended): valid() is true iff the handle currently owns a
callable, executed or not; it is false exactly for the empty handle
(default-constructed or moved-from), and it remains true after
execute() has run. -/
theorem claim_valid_owns_callable {α : Type} (t : task α)
    (pt : packaged_task α) :
    (t.valid = true ↔ ∃ pt0, t.content = some pt0) ∧
    (task.mk0 : task α).valid = false ∧
    ((t.moveFrom).2).valid = false ∧
    (task.ofPackaged pt).valid = true ∧
    (((task.ofPackaged pt).execute).2).valid = true := by
  refine ⟨?_, rfl, rfl, rfl, rfl⟩
  simp [task.valid, Option.isSome_iff_exists]

/-- C7: execute() on an empty handle hits the trap branch (the null
dereference, never a silent no-op), a second execute() on the same task
raises the promise_already_satisfied failure, and under the
precondition of a valid not-yet-executed handle neither error branch is
taken. -/
theorem claim_execute_misuse {α : Type} (t : task α) :
    (t.content = none → (t.execute).1 = ExecOutcome.trap) ∧
    (∀ pt, t.content = some pt → pt.invoked = true →
      (t.execute).1 = ExecOutcome.alreadySatisfied) ∧
    (∀ pt, t.content = some pt → pt.invoked = false →
      (t.execute).1 = ExecOutcome.done) := by
  refine ⟨fun h => ?_, fun pt h hi => ?_, fun pt h hi => ?_⟩
  · simp [task.execute, h]
  · simp [task.execute, h, packaged_task.run, hi]
  · simp [task.execute, h, packaged_task.run, hi]

/-- C7 witness: the trap on a concrete empty handle, the
promise_already_satisfied failure on a concrete second execute, and the
normal return on a concrete valid fresh handle. -/
theorem claim_execute_misuse_witness :
    ((task.mk0 : task Nat).execute).1 = ExecOutcome.trap ∧
    ((((task.ofPackaged (bindF (fun n : Nat => n) 1)).execute).2).execute).1
      = ExecOutcome.alreadySatisfied ∧
    ((task.ofPackaged (bindF (fun n : Nat => n) 1)).execute).1
      = ExecOutcome.done :=
  ⟨(claim_execute_misuse (task.mk0 : task Nat)).1 rfl,
    (claim_execute_misuse
      (((task.ofPackaged (bindF (fun n : Nat => n) 1)).execute).2)).2.1
      _ rfl rfl,
    (claim_execute_misuse
      (task.ofPackaged (bindF (fun n : Nat => n) 1))).2.2 _ rfl rfl⟩

/-- C8: the shutdown flag is one-way: after stop(), no reachable
sequence of addWork / getWork / stop operations ever clears it, and
stop() is idempotent, leaving the state unchanged when repeated. -/
theorem claim_stop_one_way {τ : Type} (q : queue τ) (ops : List (QOp τ)) :
    ((q.stop).applyOps ops).m_stop = true ∧ (q.stop).stop = q.stop :=
  ⟨applyOps_stop_mono _ ops rfl, rfl⟩

/-- C9: the worker loop executes a returned handle exactly when it is
valid and terminates exactly when getWork returns an invalid handle: on
a stopped queue it exits at once executing nothing; an empty returned
handle or an invalid queued handle ends the loop; a valid handle is
executed and the loop continues; and when getWork blocks the loop has
neither executed anything further nor exited. -/
theorem claim_worker_loop {α : Type} (q : queue (task α)) :
    (q.m_stop = true → worker q = ([], q, true)) ∧
    (q.getWork = none → worker q = ([], q, false)) ∧
    (∀ q1, q.getWork = some (none, q1) → worker q = ([], q1, true)) ∧
    (∀ t q1, q.getWork = some (some t, q1) → t.valid = true →
      worker q = (t :: (worker q1).1, (worker q1).2.1, (worker q1).2.2)) ∧
    (∀ t q1, q.getWork = some (some t, q1) → t.valid = false →
      worker q = ([], q1, true)) :=
  ⟨fun h => worker_getWork_empty_handle q q (getWork_stopped q h),
    worker_getWork_none q,
    fun q1 h => worker_getWork_empty_handle q q1 h,
    fun t q1 h hv => worker_getWork_valid q q1 t h hv,
    fun t q1 h hv => worker_getWork_invalid_task q q1 t h hv⟩

/-- C9 witness: a worker on a concrete stopped queue exits at once
having executed nothing. -/
theorem claim_worker_loop_witness :
    worker (⟨[], true⟩ : queue (task Nat))
      = ([], (⟨[], true⟩ : queue (task Nat)), true) :=
  (claim_worker_loop (⟨[], true⟩ : queue (task Nat))).1 rfl

/-- C10: a default-constructed task is empty: valid() is false, and it
coincides with a moved-from handle, observably (valid, execute) and as
a state. -/
theorem claim_default_task_empty {α : Type} (t : task α) :
    (task.mk0 : task α).valid = false ∧
    (t.moveFrom).2 = task.mk0 ∧
    ((t.moveFrom).2).valid = false ∧
    ((t.moveFrom).2).execute = (task.mk0 : task α).execute :=
  ⟨rfl, rfl, rfl, rfl⟩

end xrt.task
